import Mathlib

/-!
Shallow embedding of `User Tools/iSCSIPropertyList.c` (iSCSIInitiator).

The C file manages three process-wide caches (targets, discovery, initiator),
each a `CFMutableDictionaryRef` that may be `NULL`, paired with a modified
flag, and reconciles them with `CFPreferences` in `iSCSIPLSynchronize`.
CHAP secrets are delegated to the OS keychain.

Modelling conventions:
- a CF property-list value is a `Node` (string scalar or string-keyed
  dictionary); dictionaries are association lists with CF's set/remove
  semantics (`CFDictionarySetValue` replaces in place or appends,
  `CFDictionaryRemoveValue` drops the key);
- a `CFMutableDictionaryRef` variable that may be `NULL` is an
  `Option Dict`;
- the three global caches and flags form an explicit `PLState` threaded
  through every function; a C function that mutates a dictionary through a
  pointer returned by an accessor is modelled by writing the mutated
  dictionary back along the same access path;
- `CFPreferences` is a `PrefStore` (key-indexed map of optional
  dictionaries); `CFPreferencesSetValue` with a `NULL` value removes the key;
- the keychain is a `Keychain`; a lookup yields the `OSStatus` of the
  `SecItemCopyMatching` query for the item labelled by the node IQN together
  with the stored (user, secret) pair, which is meaningful only when the
  status is `errSecSuccess` (0);
- an operation whose C code would dereference `NULL` (or hand a `NULL`
  `CFTypeRef` to a CF function that requires a non-`NULL` argument, such as
  `CFStringCompare`, `CFRelease`, `CFDictionaryContainsKey` or
  `CFStringCreateCopy`) returns `none` at its outer `Option` layer.
-/

/-- A property-list value: either a string scalar or a string-keyed
dictionary (association list, keys unique in well-formed data). -/
inductive Node where
  | str (s : String) : Node
  | dict (entries : List (String × Node)) : Node

/-- A `CFMutableDictionaryRef` content: association list of key/value pairs. -/
abbrev Dict := List (String × Node)

/-- Model of `CFDictionaryGetValue`: first value bound to `key`, if any. -/
def dictGetValue : Dict → String → Option Node
  | [], _ => none
  | kv :: rest, key => if kv.1 = key then some kv.2 else dictGetValue rest key

/-- Model of `CFDictionaryContainsKey`. -/
def dictContainsKey : Dict → String → Bool
  | [], _ => false
  | kv :: rest, key => if kv.1 = key then true else dictContainsKey rest key

/-- Model of `CFDictionaryGetCountOfKey`. -/
def dictCountOfKey : Dict → String → Nat
  | [], _ => 0
  | kv :: rest, key => (if kv.1 = key then 1 else 0) + dictCountOfKey rest key

/-- Model of `CFDictionarySetValue`: replace the binding in place if the key
is present, otherwise append it. -/
def dictSetValue : Dict → String → Node → Dict
  | [], key, value => [(key, value)]
  | kv :: rest, key, value =>
      if kv.1 = key then (key, value) :: rest else kv :: dictSetValue rest key value

/-- Model of `CFDictionaryRemoveValue`: drop the binding for the key. -/
def dictRemoveValue : Dict → String → Dict
  | [], _ => []
  | kv :: rest, key =>
      if kv.1 = key then dictRemoveValue rest key else kv :: dictRemoveValue rest key

/-- A dictionary-valued lookup: `CFDictionaryGetValue` whose result the C code
uses as a `CFMutableDictionaryRef`. Returns `some` only when the value is
actually a dictionary. -/
def dictGetDict (d : Dict) (key : String) : Option Dict :=
  match dictGetValue d key with
  | some (Node.dict entries) => some entries
  | _ => none

/-! Preference key constants, from the top of `iSCSIPropertyList.c`. -/

/-- Preference key name for the iSCSI targets dictionary. -/
def kiSCSIPKTargetsKey : String := "Target Nodes"

/-- Preference key name for a specific target's data. -/
def kiSCSIPKTargetKey : String := "Target Data"

/-- Preference key name for the iSCSI discovery dictionary. -/
def kiSCSIPKDiscoveryKey : String := "SendTargets Discovery"

/-- Preference key name for the iSCSI initiator dictionary. -/
def kiSCSIPKInitiatorKey : String := "Initiator Node"

/-- Preference key name for session configuration. -/
def kiSCSIPKSessionCfgKey : String := "Session Configuration"

/-- Preference key name for a target's portals dictionary. -/
def kiSCSIPKPortalsKey : String := "Portals"

/-- Preference key name for a specific portal's data. -/
def kiSCSIPKPortalKey : String := "Portal Data"

/-- Preference key name for connection configuration. -/
def kiSCSIPKConnectionCfgKey : String := "Connection Configuration"

/-- Preference key name for authentication. -/
def kiSCSIPKAuthKey : String := "Authentication"

/-- Preference key value for no authentication. -/
def kiSCSIPVAuthNone : String := "None"

/-- Preference key value for CHAP authentication. -/
def kiSCSIPVAuthCHAP : String := "CHAP"

/-- Preference key name for the initiator IQN. -/
def kiSCSIPKInitiatorIQN : String := "Name"

/-- Preference key name for the initiator alias. -/
def kiSCSIPKInitiatorAlias : String := "Alias"

/-- The process-wide mutable state of `iSCSIPropertyList.c`: the three cache
globals and their modified flags, in source declaration order. -/
structure PLState where
  targetsCache : Option Dict
  targetNodesCacheModified : Bool
  discoveryCache : Option Dict
  discoveryCacheModified : Bool
  initiatorCache : Option Dict
  initiatorNodeCacheModified : Bool

/-- Model of the `CFPreferences` backing store for this app id: the value
(possibly absent) stored under each top-level key. -/
structure PrefStore where
  values : String → Option Dict

/-- Model of `CFPreferencesSetValue`: storing `none` removes the key. -/
def PrefStore.set (ps : PrefStore) (key : String) (value : Option Dict) : PrefStore :=
  ⟨fun k => if k = key then value else ps.values k⟩

/-- Model of the system keychain consulted and written by the CHAP-secret
helpers. `lookup nodeIQN` gives the `OSStatus` of the generic-password query
for the item labelled `nodeIQN`, plus the stored account (user) and secret;
the latter two are meaningful only when the status is `errSecSuccess` (0). -/
structure Keychain where
  lookup : String → Int × String × String

/-- Model of the authentication objects built by `iSCSIAuthCreateNone` and
`iSCSIAuthCreateCHAP` (external `iSCSIAuth` codec). -/
inductive iSCSIAuth where
  | authNone : iSCSIAuth
  | authCHAP (user sharedSecret : String) : iSCSIAuth

/-- Embedding of `iSCSIPLSetCHAPSecretForNode` (lines 90-129): per its
documented contract, creates or updates the keychain entry for `nodeIQN`
with the given user and shared secret. Failures of the external keychain
calls are not modelled; the C code ignores the resulting status. -/
def iSCSIPLSetCHAPSecretForNode (nodeIQN user sharedSecret : String)
    (keychain : Keychain) : Keychain :=
  ⟨fun x => if x = nodeIQN then (0, user, sharedSecret) else keychain.lookup x⟩

/-- Embedding of `iSCSIPLCopyCHAPSecretForNode` (lines 135-184): queries the
keychain for the generic-password item labelled `nodeIQN` and returns the
status together with the (user, secret) pair, which the C code writes to its
out-parameters only on success. -/
def iSCSIPLCopyCHAPSecretForNode (nodeIQN : String) (keychain : Keychain) :
    Int × String × String :=
  keychain.lookup nodeIQN

/-- Embedding of `iSCSIPLCopyPropertyDict` (lines 190-207): reads the value
stored under `key`; a deep mutable copy is the identity in this pure model. -/
def iSCSIPLCopyPropertyDict (key : String) (ps : PrefStore) : Option Dict :=
  ps.values key

/-- Embedding of `iSCSIPLCreateTargetsDict` (lines 211-217): an empty
mutable dictionary. -/
def iSCSIPLCreateTargetsDict : Dict := []

/-- Embedding of `iSCSIPLCreateDiscoveryDict` (lines 221-227): an empty
mutable dictionary. -/
def iSCSIPLCreateDiscoveryDict : Dict := []

/-- Embedding of `iSCSIPLCreateInitiatorDict` (lines 233-249): a dictionary
holding empty alias and IQN strings. -/
def iSCSIPLCreateInitiatorDict : Dict :=
  [(kiSCSIPKInitiatorAlias, Node.str ""), (kiSCSIPKInitiatorIQN, Node.str "")]

/-- Embedding of `iSCSIPLGetInitiator` (lines 251-257). -/
def iSCSIPLGetInitiator (createIfMissing : Bool) (st : PLState) :
    Option Dict × PLState :=
  if createIfMissing ∧ st.initiatorCache.isNone then
    (some iSCSIPLCreateInitiatorDict, { st with initiatorCache := some iSCSIPLCreateInitiatorDict })
  else
    (st.initiatorCache, st)

/-- Embedding of `iSCSIPLGetTargets` (lines 259-265). -/
def iSCSIPLGetTargets (createIfMissing : Bool) (st : PLState) :
    Option Dict × PLState :=
  if createIfMissing ∧ st.targetsCache.isNone then
    (some iSCSIPLCreateTargetsDict, { st with targetsCache := some iSCSIPLCreateTargetsDict })
  else
    (st.targetsCache, st)

/-- Write a mutated target-info dictionary back into the targets cache under
`targetIQN`. In C this mutation happens in place through the pointer returned
by `iSCSIPLGetTargetInfo`; here the aliasing is made explicit. -/
def stWriteTargetInfo (st : PLState) (targetIQN : String) (targetInfo : Dict) : PLState :=
  match st.targetsCache with
  | some targetsList =>
      { st with targetsCache := some (dictSetValue targetsList targetIQN (Node.dict targetInfo)) }
  | none => st

/-- Embedding of `iSCSIPLGetTargetInfo` (lines 267-287): resolves (and, when
`createIfMissing`, creates) the per-target dictionary inside the targets
cache. -/
def iSCSIPLGetTargetInfo (targetIQN : String) (createIfMissing : Bool) (st : PLState) :
    Option Dict × PLState :=
  match iSCSIPLGetTargets createIfMissing st with
  | (some targetsList, st₁) =>
      if createIfMissing ∧ dictCountOfKey targetsList targetIQN = 0 then
        let targetsList₂ := dictSetValue targetsList targetIQN (Node.dict [])
        (dictGetDict targetsList₂ targetIQN, { st₁ with targetsCache := some targetsList₂ })
      else
        (dictGetDict targetsList targetIQN, st₁)
  | (none, st₁) => (none, st₁)

/-- Write a mutated portals-list dictionary back into the targets cache under
`targetIQN`/`Portals`, modelling in-place mutation through the pointer
returned by `iSCSIPLGetPortalsList`. -/
def stWritePortalsList (st : PLState) (targetIQN : String) (portalsList : Dict) : PLState :=
  match st.targetsCache with
  | some targetsList =>
      match dictGetDict targetsList targetIQN with
      | some targetInfo =>
          { st with targetsCache := some (dictSetValue targetsList targetIQN
              (Node.dict (dictSetValue targetInfo kiSCSIPKPortalsKey (Node.dict portalsList)))) }
      | none => st
  | none => st

/-- Embedding of `iSCSIPLGetPortalsList` (lines 290-310). -/
def iSCSIPLGetPortalsList (targetIQN : String) (createIfMissing : Bool) (st : PLState) :
    Option Dict × PLState :=
  match iSCSIPLGetTargetInfo targetIQN createIfMissing st with
  | (some targetInfo, st₁) =>
      if createIfMissing ∧ dictCountOfKey targetInfo kiSCSIPKPortalsKey = 0 then
        let targetInfo₂ := dictSetValue targetInfo kiSCSIPKPortalsKey (Node.dict [])
        (dictGetDict targetInfo₂ kiSCSIPKPortalsKey, stWriteTargetInfo st₁ targetIQN targetInfo₂)
      else
        (dictGetDict targetInfo kiSCSIPKPortalsKey, st₁)
  | (none, st₁) => (none, st₁)

/-- Embedding of `iSCSIPLGetPortalInfo` (lines 312-342): the created portal
entry is pre-populated with empty authentication, connection-configuration
and portal-data strings. -/
def iSCSIPLGetPortalInfo (targetIQN portalAddress : String) (createIfMissing : Bool)
    (st : PLState) : Option Dict × PLState :=
  match iSCSIPLGetPortalsList targetIQN createIfMissing st with
  | (some portalsList, st₁) =>
      if createIfMissing ∧ dictCountOfKey portalsList portalAddress = 0 then
        let portalInfo : Dict :=
          dictSetValue (dictSetValue (dictSetValue [] kiSCSIPKAuthKey (Node.str ""))
            kiSCSIPKConnectionCfgKey (Node.str "")) kiSCSIPKPortalKey (Node.str "")
        let portalsList₂ := dictSetValue portalsList portalAddress (Node.dict portalInfo)
        (dictGetDict portalsList₂ portalAddress, stWritePortalsList st₁ targetIQN portalsList₂)
      else
        (dictGetDict portalsList portalAddress, st₁)
  | (none, st₁) => (none, st₁)

/-- Embedding of `iSCSIPLCopyAuthenticationForTarget` (lines 407-427).
Outer `none` marks undefined behavior: when the target entry exists but has
no `Authentication` string, the C code hands the `NULL` (or non-string)
lookup result to `CFStringCompare`. `some none` is the `NULL` return when the
target entry does not resolve. -/
def iSCSIPLCopyAuthenticationForTarget (targetIQN : String) (st : PLState)
    (keychain : Keychain) : Option (Option iSCSIAuth) :=
  match iSCSIPLGetTargetInfo targetIQN false st with
  | (none, _) => some none
  | (some targetInfo, _) =>
      match dictGetValue targetInfo kiSCSIPKAuthKey with
      | none => none
      | some (Node.dict _) => none
      | some (Node.str authMethod) =>
          if authMethod = kiSCSIPVAuthCHAP then
            let r := iSCSIPLCopyCHAPSecretForNode targetIQN keychain
            if r.1 = 0 then some (some (iSCSIAuth.authCHAP r.2.1 r.2.2))
            else some (some iSCSIAuth.authNone)
          else some (some iSCSIAuth.authNone)

/-- Embedding of `iSCSIPLSetAuthenticationForTarget` (lines 432-447). The
target entry is resolved with `createIfMissing = false`; if it does not
resolve, `CFDictionarySetValue` is applied to `NULL` (outer `none`). -/
def iSCSIPLSetAuthenticationForTarget (targetIQN : String) (targetAuth : iSCSIAuth)
    (st : PLState) (keychain : Keychain) : Option (PLState × Keychain) :=
  match iSCSIPLGetTargetInfo targetIQN false st with
  | (none, _) => none
  | (some targetInfo, st₁) =>
      match targetAuth with
      | iSCSIAuth.authNone =>
          some (stWriteTargetInfo { st₁ with targetNodesCacheModified := true } targetIQN
                  (dictSetValue targetInfo kiSCSIPKAuthKey (Node.str kiSCSIPVAuthNone)),
                keychain)
      | iSCSIAuth.authCHAP user sharedSecret =>
          some (stWriteTargetInfo { st₁ with targetNodesCacheModified := true } targetIQN
                  (dictSetValue targetInfo kiSCSIPKAuthKey (Node.str kiSCSIPVAuthCHAP)),
                iSCSIPLSetCHAPSecretForNode targetIQN user sharedSecret keychain)

/-- Embedding of `iSCSIPLCopyInitiatorIQN` (lines 564-574). Outer `none`
marks undefined behavior: `CFStringCreateCopy` applied to a `NULL` or
non-string `Name` value; `some none` is the `NULL` return when the initiator
cache is absent. -/
def iSCSIPLCopyInitiatorIQN (st : PLState) : Option (Option String) :=
  match st.initiatorCache with
  | none => some none
  | some initiatorInfo =>
      match dictGetValue initiatorInfo kiSCSIPKInitiatorIQN with
      | some (Node.str s) => some (some s)
      | _ => none

/-- Embedding of `iSCSIPLCopyAuthenticationForInitiator` (lines 451-474).
Undefined-behavior cases (outer `none`): missing or non-string
`Authentication` value handed to `CFStringCompare`; a `NULL` initiator IQN
from `iSCSIPLCopyInitiatorIQN` used in the keychain query. -/
def iSCSIPLCopyAuthenticationForInitiator (st : PLState) (keychain : Keychain) :
    Option (Option iSCSIAuth) :=
  match iSCSIPLGetInitiator false st with
  | (none, _) => some none
  | (some initiatorInfo, _) =>
      match dictGetValue initiatorInfo kiSCSIPKAuthKey with
      | none => none
      | some (Node.dict _) => none
      | some (Node.str authMethod) =>
          if authMethod = kiSCSIPVAuthCHAP then
            match iSCSIPLCopyInitiatorIQN st with
            | none => none
            | some none => none
            | some (some initiatorIQN) =>
                let r := iSCSIPLCopyCHAPSecretForNode initiatorIQN keychain
                if r.1 = 0 then some (some (iSCSIAuth.authCHAP r.2.1 r.2.2))
                else some (some iSCSIAuth.authNone)
          else some (some iSCSIAuth.authNone)

/-- Embedding of `iSCSIPLSetAuthenticationForInitiator` (lines 478-495). The
initiator cache is resolved with `createIfMissing = true`, so the dictionary
write cannot fault; in the CHAP branch the initiator IQN is then copied and
used as the keychain label. -/
def iSCSIPLSetAuthenticationForInitiator (initiatorAuth : iSCSIAuth) (st : PLState)
    (keychain : Keychain) : Option (PLState × Keychain) :=
  match iSCSIPLGetInitiator true st with
  | (none, _) => none
  | (some initiatorInfo, st₁) =>
      match initiatorAuth with
      | iSCSIAuth.authNone =>
          some ({ st₁ with
                    initiatorCache :=
                      some (dictSetValue initiatorInfo kiSCSIPKAuthKey (Node.str kiSCSIPVAuthNone)),
                    initiatorNodeCacheModified := true },
                keychain)
      | iSCSIAuth.authCHAP user sharedSecret =>
          let st₂ := { st₁ with
                         initiatorCache :=
                           some (dictSetValue initiatorInfo kiSCSIPKAuthKey
                                   (Node.str kiSCSIPVAuthCHAP)) }
          match iSCSIPLCopyInitiatorIQN st₂ with
          | none => none
          | some none => none
          | some (some initiatorIQN) =>
              some ({ st₂ with initiatorNodeCacheModified := true },
                    iSCSIPLSetCHAPSecretForNode initiatorIQN user sharedSecret keychain)

/-- Embedding of `iSCSIPLSetTarget` (lines 539-548). The target object is
represented by its IQN (`iSCSITargetGetIQN`) and its serialized dictionary
(`iSCSITargetCreateDictionary`, external codec). Outer `none` marks the
unreachable-in-practice case of a non-dictionary value already bound at the
target IQN, where the C code would mutate a garbage pointer. -/
def iSCSIPLSetTarget (targetIQN : String) (targetDict : Node) (st : PLState) :
    Option PLState :=
  match iSCSIPLGetTargetInfo targetIQN true st with
  | (none, _) => none
  | (some targetInfo, st₁) =>
      some (stWriteTargetInfo { st₁ with targetNodesCacheModified := true } targetIQN
              (dictSetValue targetInfo kiSCSIPKTargetKey targetDict))

/-- Embedding of `iSCSIPLRemoveTarget` (lines 550-560): returns unchanged if
the targets cache is absent; otherwise removes the key and sets the
modified flag. -/
def iSCSIPLRemoveTarget (targetIQN : String) (st : PLState) : PLState :=
  match iSCSIPLGetTargets false st with
  | (none, st₁) => st₁
  | (some targetsList, st₁) =>
      { st₁ with targetsCache := some (dictRemoveValue targetsList targetIQN),
                 targetNodesCacheModified := true }

/-- Embedding of `iSCSIPLRemovePortalForTarget` (lines 526-537): returns
unchanged if the portals list does not resolve; otherwise removes the portal
address and sets the modified flag. -/
def iSCSIPLRemovePortalForTarget (targetIQN portalAddress : String) (st : PLState) :
    PLState :=
  match iSCSIPLGetPortalsList targetIQN false st with
  | (none, st₁) => st₁
  | (some portalsList, st₁) =>
      stWritePortalsList { st₁ with targetNodesCacheModified := true } targetIQN
        (dictRemoveValue portalsList portalAddress)

/-- Embedding of `iSCSIPLContainsTarget` (lines 619-623): `none` marks the
undefined behavior of `CFDictionaryContainsKey` applied to the `NULL`
targets list when the cache was never materialized. -/
def iSCSIPLContainsTarget (targetIQN : String) (st : PLState) : Option Bool :=
  match iSCSIPLGetTargets false st with
  | (none, _) => none
  | (some targetsList, _) => some (dictContainsKey targetsList targetIQN)

/-- Embedding of `iSCSIPLContainsPortalForTarget` (lines 629-634): here the
`NULL` portals list is guarded by the short-circuit `&&`. -/
def iSCSIPLContainsPortalForTarget (targetIQN portalAddress : String) (st : PLState) :
    Bool :=
  match iSCSIPLGetPortalsList targetIQN false st with
  | (none, _) => false
  | (some portalsList, _) => dictContainsKey portalsList portalAddress

/-- Embedding of `iSCSIPLAddDiscoveryRecord` (lines 681-703). The discovery
record is represented by its serialized dictionary
(`iSCSIDiscoveryRecCreateDictionary`, external codec), `none` when that
serialization returns `NULL` (early return). Each key of the record is set
into the discovery cache in order, creating the cache if absent, and the
discovery modified flag is set. -/
def iSCSIPLAddDiscoveryRecord (discoveryDict : Option Dict) (st : PLState) : PLState :=
  match discoveryDict with
  | none => st
  | some dd =>
      let discoveryCache₀ :=
        match st.discoveryCache with
        | none => iSCSIPLCreateDiscoveryDict
        | some dc => dc
      let discoveryCache₁ := dd.foldl (fun acc kv => dictSetValue acc kv.1 kv.2) discoveryCache₀
      { st with discoveryCache := some discoveryCache₁, discoveryCacheModified := true }

/-- Embedding of `iSCSIPLCopyDiscoveryRecord` (lines 707-713): the external
codec `iSCSIDiscoveryRecCreateWithDictionary` is the identity on the cached
dictionary in this model. -/
def iSCSIPLCopyDiscoveryRecord (st : PLState) : Option Dict :=
  st.discoveryCache

/-- Embedding of `iSCSIPLClearDiscoveryRecord` (lines 716-721): `CFRelease`
is applied to the discovery cache unconditionally, so an absent cache is a
`NULL` release (outer `none`); otherwise the cache is set to absent and the
discovery modified flag is set. -/
def iSCSIPLClearDiscoveryRecord (st : PLState) : Option PLState :=
  match st.discoveryCache with
  | none => none
  | some _ =>
      some { st with discoveryCache := none, discoveryCacheModified := true }

/-- Embedding of `iSCSIPLSynchronize` (lines 725-774): write each modified
namespace's cache to the preference store, commit
(`CFPreferencesAppSynchronize`, no observable effect on the value map),
reload every namespace whose flag was not set, and clear all three flags. -/
def iSCSIPLSynchronize (st : PLState) (ps : PrefStore) : PLState × PrefStore :=
  let ps₁ := if st.targetNodesCacheModified then ps.set kiSCSIPKTargetsKey st.targetsCache else ps
  let ps₂ := if st.initiatorNodeCacheModified then
               ps₁.set kiSCSIPKInitiatorKey st.initiatorCache else ps₁
  let ps₃ := if st.discoveryCacheModified then
               ps₂.set kiSCSIPKDiscoveryKey st.discoveryCache else ps₂
  let targetsCache₁ := if st.targetNodesCacheModified then st.targetsCache
                       else iSCSIPLCopyPropertyDict kiSCSIPKTargetsKey ps₃
  let initiatorCache₁ := if st.initiatorNodeCacheModified then st.initiatorCache
                         else iSCSIPLCopyPropertyDict kiSCSIPKInitiatorKey ps₃
  let discoveryCache₁ := if st.discoveryCacheModified then st.discoveryCache
                         else iSCSIPLCopyPropertyDict kiSCSIPKDiscoveryKey ps₃
  ({ targetsCache := targetsCache₁,
     targetNodesCacheModified := false,
     discoveryCache := discoveryCache₁,
     discoveryCacheModified := false,
     initiatorCache := initiatorCache₁,
     initiatorNodeCacheModified := false }, ps₃)

/-! Basic lemmas about the dictionary operations. -/

theorem dictGetValue_setValue_self (d : Dict) (key : String) (value : Node) :
    dictGetValue (dictSetValue d key value) key = some value := by
  induction d with
  | nil => simp [dictSetValue, dictGetValue]
  | cons kv rest ih =>
      by_cases h : kv.1 = key
      · simp [dictSetValue, dictGetValue, h]
      · simp [dictSetValue, dictGetValue, h, ih]

theorem dictGetValue_setValue_ne (d : Dict) (key key₂ : String) (value : Node)
    (h : key₂ ≠ key) :
    dictGetValue (dictSetValue d key value) key₂ = dictGetValue d key₂ := by
  induction d with
  | nil => simp [dictSetValue, dictGetValue, Ne.symm h]
  | cons kv rest ih =>
      by_cases hk : kv.1 = key
      · simp [dictSetValue, dictGetValue, hk, Ne.symm h]
      · simp [dictSetValue, dictGetValue, hk, ih]

theorem dictContainsKey_eq_false_iff (d : Dict) (key : String) :
    dictContainsKey d key = false ↔ dictGetValue d key = none := by
  induction d with
  | nil => simp [dictContainsKey, dictGetValue]
  | cons kv rest ih =>
      by_cases h : kv.1 = key
      · simp [dictContainsKey, dictGetValue, h]
      · simp [dictContainsKey, dictGetValue, h, ih]

theorem dictContainsKey_removeValue_self (d : Dict) (key : String) :
    dictContainsKey (dictRemoveValue d key) key = false := by
  induction d with
  | nil => simp [dictRemoveValue, dictContainsKey]
  | cons kv rest ih =>
      by_cases h : kv.1 = key
      · simp [dictRemoveValue, h, ih]
      · simp [dictRemoveValue, dictContainsKey, h, ih]

theorem dictGetValue_eq_none_of_not_mem (d : Dict) (key : String)
    (h : key ∉ d.map Prod.fst) : dictGetValue d key = none := by
  induction d with
  | nil => rfl
  | cons kv rest ih =>
      simp only [List.map_cons, List.mem_cons, not_or] at h
      have h1 : kv.1 ≠ key := fun hh => h.1 hh.symm
      simp [dictGetValue, h1, ih h.2]

theorem dictGetValue_foldl_setValue (dd : Dict) :
    ∀ (dc : Dict) (key : String), (dd.map Prod.fst).Nodup →
      dictGetValue (dd.foldl (fun acc kv => dictSetValue acc kv.1 kv.2) dc) key
        = (dictGetValue dd key).or (dictGetValue dc key) := by
  induction dd with
  | nil => intro dc key _; simp [dictGetValue, Option.or]
  | cons kv rest ih =>
      intro dc key hnd
      simp only [List.map_cons, List.nodup_cons] at hnd
      rw [List.foldl_cons, ih (dictSetValue dc kv.1 kv.2) key hnd.2]
      by_cases h : kv.1 = key
      · rw [← h, dictGetValue_eq_none_of_not_mem rest kv.1 hnd.1,
          dictGetValue_setValue_self]
        simp [dictGetValue, Option.or]
      · rw [dictGetValue_setValue_ne dc kv.1 key kv.2 (fun hh => h hh.symm)]
        simp [dictGetValue, h]

/-! Read-only behavior of the accessors when `createIfMissing` is false,
and flag preservation of the accessors in general. -/

theorem iSCSIPLGetTargets_false (st : PLState) :
    iSCSIPLGetTargets false st = (st.targetsCache, st) := by
  simp [iSCSIPLGetTargets]

theorem iSCSIPLGetInitiator_false (st : PLState) :
    iSCSIPLGetInitiator false st = (st.initiatorCache, st) := by
  simp [iSCSIPLGetInitiator]

theorem iSCSIPLGetTargetInfo_false (targetIQN : String) (st : PLState) :
    iSCSIPLGetTargetInfo targetIQN false st
      = (st.targetsCache.bind (fun targetsList => dictGetDict targetsList targetIQN), st) := by
  rw [iSCSIPLGetTargetInfo, iSCSIPLGetTargets_false]
  cases st.targetsCache <;> simp

theorem iSCSIPLGetPortalsList_false (targetIQN : String) (st : PLState) :
    iSCSIPLGetPortalsList targetIQN false st
      = ((st.targetsCache.bind (fun targetsList => dictGetDict targetsList targetIQN)).bind
           (fun targetInfo => dictGetDict targetInfo kiSCSIPKPortalsKey), st) := by
  rw [iSCSIPLGetPortalsList, iSCSIPLGetTargetInfo_false]
  cases st.targetsCache.bind (fun targetsList => dictGetDict targetsList targetIQN) <;> simp

theorem iSCSIPLGetTargets_flags (createIfMissing : Bool) (st : PLState) :
    (iSCSIPLGetTargets createIfMissing st).2.targetNodesCacheModified = st.targetNodesCacheModified
  ∧ (iSCSIPLGetTargets createIfMissing st).2.discoveryCacheModified = st.discoveryCacheModified
  ∧ (iSCSIPLGetTargets createIfMissing st).2.initiatorNodeCacheModified
      = st.initiatorNodeCacheModified := by
  unfold iSCSIPLGetTargets
  split <;> exact ⟨rfl, rfl, rfl⟩

theorem stWriteTargetInfo_flags (st : PLState) (targetIQN : String) (targetInfo : Dict) :
    (stWriteTargetInfo st targetIQN targetInfo).targetNodesCacheModified
        = st.targetNodesCacheModified
  ∧ (stWriteTargetInfo st targetIQN targetInfo).discoveryCacheModified
        = st.discoveryCacheModified
  ∧ (stWriteTargetInfo st targetIQN targetInfo).initiatorNodeCacheModified
        = st.initiatorNodeCacheModified := by
  unfold stWriteTargetInfo
  split <;> exact ⟨rfl, rfl, rfl⟩

theorem stWritePortalsList_flags (st : PLState) (targetIQN : String) (portalsList : Dict) :
    (stWritePortalsList st targetIQN portalsList).targetNodesCacheModified
        = st.targetNodesCacheModified
  ∧ (stWritePortalsList st targetIQN portalsList).discoveryCacheModified
        = st.discoveryCacheModified
  ∧ (stWritePortalsList st targetIQN portalsList).initiatorNodeCacheModified
        = st.initiatorNodeCacheModified := by
  unfold stWritePortalsList
  split
  · split <;> exact ⟨rfl, rfl, rfl⟩
  · exact ⟨rfl, rfl, rfl⟩

theorem iSCSIPLGetTargetInfo_flags (targetIQN : String) (createIfMissing : Bool)
    (st : PLState) :
    (iSCSIPLGetTargetInfo targetIQN createIfMissing st).2.targetNodesCacheModified
        = st.targetNodesCacheModified
  ∧ (iSCSIPLGetTargetInfo targetIQN createIfMissing st).2.discoveryCacheModified
        = st.discoveryCacheModified
  ∧ (iSCSIPLGetTargetInfo targetIQN createIfMissing st).2.initiatorNodeCacheModified
        = st.initiatorNodeCacheModified := by
  have h := iSCSIPLGetTargets_flags createIfMissing st
  unfold iSCSIPLGetTargetInfo
  rcases hg : iSCSIPLGetTargets createIfMissing st with ⟨tlOpt, st₁⟩
  rw [hg] at h
  cases tlOpt with
  | none => exact h
  | some tl =>
      simp only
      split
      · exact h
      · exact h

theorem iSCSIPLGetPortalsList_flags (targetIQN : String) (createIfMissing : Bool)
    (st : PLState) :
    (iSCSIPLGetPortalsList targetIQN createIfMissing st).2.targetNodesCacheModified
        = st.targetNodesCacheModified
  ∧ (iSCSIPLGetPortalsList targetIQN createIfMissing st).2.discoveryCacheModified
        = st.discoveryCacheModified
  ∧ (iSCSIPLGetPortalsList targetIQN createIfMissing st).2.initiatorNodeCacheModified
        = st.initiatorNodeCacheModified := by
  have h := iSCSIPLGetTargetInfo_flags targetIQN createIfMissing st
  unfold iSCSIPLGetPortalsList
  rcases hg : iSCSIPLGetTargetInfo targetIQN createIfMissing st with ⟨tiOpt, st₁⟩
  rw [hg] at h
  cases tiOpt with
  | none => exact h
  | some ti =>
      simp only
      split
      · have hw := stWriteTargetInfo_flags st₁ targetIQN
          (dictSetValue ti kiSCSIPKPortalsKey (Node.dict []))
        exact ⟨hw.1.trans h.1, hw.2.1.trans h.2.1, hw.2.2.trans h.2.2⟩
      · exact h

theorem iSCSIPLGetPortalInfo_flags (targetIQN portalAddress : String)
    (createIfMissing : Bool) (st : PLState) :
    (iSCSIPLGetPortalInfo targetIQN portalAddress createIfMissing st).2.targetNodesCacheModified
        = st.targetNodesCacheModified
  ∧ (iSCSIPLGetPortalInfo targetIQN portalAddress createIfMissing st).2.discoveryCacheModified
        = st.discoveryCacheModified
  ∧ (iSCSIPLGetPortalInfo targetIQN portalAddress createIfMissing st).2.initiatorNodeCacheModified
        = st.initiatorNodeCacheModified := by
  have h := iSCSIPLGetPortalsList_flags targetIQN createIfMissing st
  unfold iSCSIPLGetPortalInfo
  rcases hg : iSCSIPLGetPortalsList targetIQN createIfMissing st with ⟨plOpt, st₁⟩
  rw [hg] at h
  cases plOpt with
  | none => exact h
  | some pl =>
      simp only
      split
      · have hw := stWritePortalsList_flags st₁ targetIQN
          (dictSetValue pl portalAddress (Node.dict
            (dictSetValue (dictSetValue (dictSetValue [] kiSCSIPKAuthKey (Node.str ""))
              kiSCSIPKConnectionCfgKey (Node.str "")) kiSCSIPKPortalKey (Node.str ""))))
        exact ⟨hw.1.trans h.1, hw.2.1.trans h.2.1, hw.2.2.trans h.2.2⟩
      · exact h

/-! Claim theorems. -/

/-- C1: for every state of the three namespace caches and flags,
`iSCSIPLSynchronize` writes a namespace's cached dictionary to the
preference store (overwriting the stored value) exactly when that
namespace's modified flag is set; for every namespace whose modified flag
was not set before the call, it discards the in-memory cache and reloads it
from the preference store after the commit; and after the call all three
modified flags are false. -/
theorem C1_synchronize_flush_reload_clear :
    ∀ (st : PLState) (ps : PrefStore),
      ((iSCSIPLSynchronize st ps).2.values kiSCSIPKTargetsKey
          = if st.targetNodesCacheModified then st.targetsCache
            else ps.values kiSCSIPKTargetsKey)
    ∧ ((iSCSIPLSynchronize st ps).2.values kiSCSIPKInitiatorKey
          = if st.initiatorNodeCacheModified then st.initiatorCache
            else ps.values kiSCSIPKInitiatorKey)
    ∧ ((iSCSIPLSynchronize st ps).2.values kiSCSIPKDiscoveryKey
          = if st.discoveryCacheModified then st.discoveryCache
            else ps.values kiSCSIPKDiscoveryKey)
    ∧ ((iSCSIPLSynchronize st ps).1.targetsCache
          = if st.targetNodesCacheModified then st.targetsCache
            else ps.values kiSCSIPKTargetsKey)
    ∧ ((iSCSIPLSynchronize st ps).1.initiatorCache
          = if st.initiatorNodeCacheModified then st.initiatorCache
            else ps.values kiSCSIPKInitiatorKey)
    ∧ ((iSCSIPLSynchronize st ps).1.discoveryCache
          = if st.discoveryCacheModified then st.discoveryCache
            else ps.values kiSCSIPKDiscoveryKey)
    ∧ (iSCSIPLSynchronize st ps).1.targetNodesCacheModified = false
    ∧ (iSCSIPLSynchronize st ps).1.initiatorNodeCacheModified = false
    ∧ (iSCSIPLSynchronize st ps).1.discoveryCacheModified = false := by
  intro st ps
  cases htm : st.targetNodesCacheModified <;> cases him : st.initiatorNodeCacheModified <;>
    cases hdm : st.discoveryCacheModified <;>
      simp [iSCSIPLSynchronize, iSCSIPLCopyPropertyDict, PrefStore.set, htm, him, hdm,
        kiSCSIPKTargetsKey, kiSCSIPKInitiatorKey, kiSCSIPKDiscoveryKey]

/-- C2, counterexample: with the targets cache present and its modified flag
clear, `iSCSIPLGetTargetInfo` with `createIfMissing = true` creates the
target entry (absent before, present after) yet leaves the targets modified
flag false, contradicting the claim that a creating accessor call sets the
owning namespace's modified flag. -/
theorem C2_counterexample :
    (iSCSIPLGetTargetInfo "iqn.2015-01.com.example:target0" true
        ⟨some [], false, none, false, none, false⟩).2.targetsCache
      = some [("iqn.2015-01.com.example:target0", Node.dict [])]
  ∧ (iSCSIPLGetTargetInfo "iqn.2015-01.com.example:target0" true
        ⟨some [], false, none, false, none, false⟩).2.targetNodesCacheModified = false := by
  exact ⟨rfl, rfl⟩

/-- C2, amended: no accessor call (`iSCSIPLGetTargetInfo`,
`iSCSIPLGetPortalsList`, `iSCSIPLGetPortalInfo`), with `createIfMissing`
true or false, ever changes any of the three modified flags, even when it
creates a target entry, a portals list, or a portal entry; in particular no
accessor call with `createIfMissing = false` ever sets a modified flag. -/
theorem C2_accessors_never_set_flags :
    ∀ (targetIQN portalAddress : String) (createIfMissing : Bool) (st : PLState),
      ((iSCSIPLGetTargetInfo targetIQN createIfMissing st).2.targetNodesCacheModified
            = st.targetNodesCacheModified
        ∧ (iSCSIPLGetTargetInfo targetIQN createIfMissing st).2.discoveryCacheModified
            = st.discoveryCacheModified
        ∧ (iSCSIPLGetTargetInfo targetIQN createIfMissing st).2.initiatorNodeCacheModified
            = st.initiatorNodeCacheModified)
    ∧ ((iSCSIPLGetPortalsList targetIQN createIfMissing st).2.targetNodesCacheModified
            = st.targetNodesCacheModified
        ∧ (iSCSIPLGetPortalsList targetIQN createIfMissing st).2.discoveryCacheModified
            = st.discoveryCacheModified
        ∧ (iSCSIPLGetPortalsList targetIQN createIfMissing st).2.initiatorNodeCacheModified
            = st.initiatorNodeCacheModified)
    ∧ ((iSCSIPLGetPortalInfo targetIQN portalAddress createIfMissing st).2.targetNodesCacheModified
            = st.targetNodesCacheModified
        ∧ (iSCSIPLGetPortalInfo targetIQN portalAddress createIfMissing st).2.discoveryCacheModified
            = st.discoveryCacheModified
        ∧ (iSCSIPLGetPortalInfo targetIQN portalAddress createIfMissing st).2.initiatorNodeCacheModified
            = st.initiatorNodeCacheModified) := by
  intro targetIQN portalAddress createIfMissing st
  exact ⟨iSCSIPLGetTargetInfo_flags targetIQN createIfMissing st,
    iSCSIPLGetPortalsList_flags targetIQN createIfMissing st,
    iSCSIPLGetPortalInfo_flags targetIQN portalAddress createIfMissing st⟩

/-- C3: evaluation at the failing input. For a target entry (and likewise an
initiator entry) whose `Authentication` key is absent, copying the
authentication feeds the `NULL` lookup result to `CFStringCompare` (outer
`none`, a crash) instead of returning a None authentication value; when the
`Authentication` entry is present and equal to "None" the claimed behavior
does hold: a None authentication value, independent of the keychain. -/
theorem C3_copyAuth_absent_auth_eval :
    iSCSIPLCopyAuthenticationForTarget "iqn.2015-01.com.example:target0"
        ⟨some [("iqn.2015-01.com.example:target0",
            Node.dict [(kiSCSIPKTargetKey, Node.str "target-data")])],
          false, none, false, none, false⟩
        ⟨fun _ => (0, "user", "secret")⟩ = none
  ∧ (∀ keychain : Keychain,
      iSCSIPLCopyAuthenticationForTarget "iqn.2015-01.com.example:target0"
        ⟨some [("iqn.2015-01.com.example:target0",
            Node.dict [(kiSCSIPKAuthKey, Node.str kiSCSIPVAuthNone)])],
          false, none, false, none, false⟩
        keychain = some (some iSCSIAuth.authNone))
  ∧ iSCSIPLCopyAuthenticationForInitiator
        ⟨none, false, none, false,
          some [(kiSCSIPKInitiatorIQN, Node.str "iqn.2015-01.com.example:initiator")],
          false⟩
        ⟨fun _ => (0, "user", "secret")⟩ = none
  ∧ (∀ keychain : Keychain,
      iSCSIPLCopyAuthenticationForInitiator
        ⟨none, false, none, false,
          some [(kiSCSIPKAuthKey, Node.str kiSCSIPVAuthNone)], false⟩
        keychain = some (some iSCSIAuth.authNone)) := by
  exact ⟨rfl, fun _ => rfl, rfl, fun _ => rfl⟩

/-- C4: for every node whose `Authentication` entry equals "CHAP", if the
keychain lookup for that node's qualified name returns any non-success
status, copying the authentication returns a None authentication value; it
returns a CHAP value with the stored (user, secret) pair exactly when the
lookup succeeds. Both the target and the initiator variant are covered. -/
theorem C4_chap_secret_fallback :
    (∀ (st : PLState) (targetsList targetInfo : Dict) (targetIQN : String) (kc : Keychain),
        st.targetsCache = some targetsList →
        dictGetDict targetsList targetIQN = some targetInfo →
        dictGetValue targetInfo kiSCSIPKAuthKey = some (Node.str kiSCSIPVAuthCHAP) →
          ((kc.lookup targetIQN).1 ≠ 0 →
              iSCSIPLCopyAuthenticationForTarget targetIQN st kc
                = some (some iSCSIAuth.authNone))
        ∧ ((kc.lookup targetIQN).1 = 0 →
              iSCSIPLCopyAuthenticationForTarget targetIQN st kc
                = some (some (iSCSIAuth.authCHAP (kc.lookup targetIQN).2.1
                    (kc.lookup targetIQN).2.2))))
  ∧ (∀ (st : PLState) (initiatorInfo : Dict) (initiatorIQN : String) (kc : Keychain),
        st.initiatorCache = some initiatorInfo →
        dictGetValue initiatorInfo kiSCSIPKAuthKey = some (Node.str kiSCSIPVAuthCHAP) →
        dictGetValue initiatorInfo kiSCSIPKInitiatorIQN = some (Node.str initiatorIQN) →
          ((kc.lookup initiatorIQN).1 ≠ 0 →
              iSCSIPLCopyAuthenticationForInitiator st kc
                = some (some iSCSIAuth.authNone))
        ∧ ((kc.lookup initiatorIQN).1 = 0 →
              iSCSIPLCopyAuthenticationForInitiator st kc
                = some (some (iSCSIAuth.authCHAP (kc.lookup initiatorIQN).2.1
                    (kc.lookup initiatorIQN).2.2)))) := by
  constructor
  · intro st targetsList targetInfo targetIQN kc h₁ h₂ h₃
    have hti : iSCSIPLGetTargetInfo targetIQN false st = (some targetInfo, st) := by
      rw [iSCSIPLGetTargetInfo_false, h₁]
      simp [h₂]
    constructor
    · intro hs
      simp [iSCSIPLCopyAuthenticationForTarget, hti, h₃,
        iSCSIPLCopyCHAPSecretForNode, hs]
    · intro hs
      simp [iSCSIPLCopyAuthenticationForTarget, hti, h₃,
        iSCSIPLCopyCHAPSecretForNode, hs]
  · intro st initiatorInfo initiatorIQN kc h₁ h₂ h₃
    have hgi : iSCSIPLGetInitiator false st = (some initiatorInfo, st) := by
      rw [iSCSIPLGetInitiator_false, h₁]
    have hiqn : iSCSIPLCopyInitiatorIQN st = some (some initiatorIQN) := by
      simp [iSCSIPLCopyInitiatorIQN, h₁, h₃]
    constructor
    · intro hs
      simp [iSCSIPLCopyAuthenticationForInitiator, hgi, h₂, hiqn,
        iSCSIPLCopyCHAPSecretForNode, hs]
    · intro hs
      simp [iSCSIPLCopyAuthenticationForInitiator, hgi, h₂, hiqn,
        iSCSIPLCopyCHAPSecretForNode, hs]

/-- C4 witness: a concrete target with a "CHAP" authentication tag, one
keychain whose lookup fails (status -25300) giving a None value, and one
whose lookup succeeds giving the stored CHAP pair. -/
theorem C4_witness :
    ((⟨some [("iqn.a", Node.dict [(kiSCSIPKAuthKey, Node.str kiSCSIPVAuthCHAP)])],
        false, none, false, none, false⟩ : PLState).targetsCache
      = some [("iqn.a", Node.dict [(kiSCSIPKAuthKey, Node.str kiSCSIPVAuthCHAP)])])
  ∧ iSCSIPLCopyAuthenticationForTarget "iqn.a"
      ⟨some [("iqn.a", Node.dict [(kiSCSIPKAuthKey, Node.str kiSCSIPVAuthCHAP)])],
        false, none, false, none, false⟩
      ⟨fun _ => (-25300, "user", "secret")⟩ = some (some iSCSIAuth.authNone)
  ∧ iSCSIPLCopyAuthenticationForTarget "iqn.a"
      ⟨some [("iqn.a", Node.dict [(kiSCSIPKAuthKey, Node.str kiSCSIPVAuthCHAP)])],
        false, none, false, none, false⟩
      ⟨fun _ => (0, "user", "secret")⟩
      = some (some (iSCSIAuth.authCHAP "user" "secret")) := by
  refine ⟨rfl, ?_, ?_⟩
  · exact (C4_chap_secret_fallback.1
      ⟨some [("iqn.a", Node.dict [(kiSCSIPKAuthKey, Node.str kiSCSIPVAuthCHAP)])],
        false, none, false, none, false⟩
      [("iqn.a", Node.dict [(kiSCSIPKAuthKey, Node.str kiSCSIPVAuthCHAP)])]
      [(kiSCSIPKAuthKey, Node.str kiSCSIPVAuthCHAP)]
      "iqn.a" ⟨fun _ => (-25300, "user", "secret")⟩
      rfl rfl rfl).1 (by decide)
  · exact (C4_chap_secret_fallback.1
      ⟨some [("iqn.a", Node.dict [(kiSCSIPKAuthKey, Node.str kiSCSIPVAuthCHAP)])],
        false, none, false, none, false⟩
      [("iqn.a", Node.dict [(kiSCSIPKAuthKey, Node.str kiSCSIPVAuthCHAP)])]
      [(kiSCSIPKAuthKey, Node.str kiSCSIPVAuthCHAP)]
      "iqn.a" ⟨fun _ => (0, "user", "secret")⟩
      rfl rfl rfl).2 rfl

/-- C5: for every node whose entry resolves and every None-method
authentication value, `setAuthentication` writes the "None" tag into the
node's `Authentication` entry and returns the keychain unchanged — no
keychain write occurs, so a previously stored CHAP secret is left stale.
Covered for the target variant (whose entry must already exist, see C9) and
the initiator variant (whose entry is created on demand). -/
theorem C5_setAuth_none_no_keychain_write :
    (∀ (st : PLState) (targetsList targetInfo : Dict) (targetIQN : String) (kc : Keychain),
        st.targetsCache = some targetsList →
        dictGetDict targetsList targetIQN = some targetInfo →
          ∃ st₂ : PLState,
            iSCSIPLSetAuthenticationForTarget targetIQN iSCSIAuth.authNone st kc
              = some (st₂, kc)
          ∧ ∃ targetInfo₂ : Dict,
              dictGetDict (st₂.targetsCache.getD []) targetIQN = some targetInfo₂
            ∧ dictGetValue targetInfo₂ kiSCSIPKAuthKey = some (Node.str kiSCSIPVAuthNone))
  ∧ (∀ (st : PLState) (kc : Keychain),
        ∃ st₂ : PLState,
          iSCSIPLSetAuthenticationForInitiator iSCSIAuth.authNone st kc = some (st₂, kc)
        ∧ dictGetValue (st₂.initiatorCache.getD []) kiSCSIPKAuthKey
            = some (Node.str kiSCSIPVAuthNone)) := by
  constructor
  · intro st targetsList targetInfo targetIQN kc h₁ h₂
    have hti : iSCSIPLGetTargetInfo targetIQN false st = (some targetInfo, st) := by
      rw [iSCSIPLGetTargetInfo_false, h₁]
      simp [h₂]
    refine ⟨_, by rw [iSCSIPLSetAuthenticationForTarget, hti], ?_⟩
    refine ⟨dictSetValue targetInfo kiSCSIPKAuthKey (Node.str kiSCSIPVAuthNone), ?_, ?_⟩
    · show dictGetDict ((stWriteTargetInfo { st with targetNodesCacheModified := true }
        targetIQN (dictSetValue targetInfo kiSCSIPKAuthKey
          (Node.str kiSCSIPVAuthNone))).targetsCache.getD []) targetIQN = _
      rw [stWriteTargetInfo]
      cases hc : ({ st with targetNodesCacheModified := true } : PLState).targetsCache with
      | none => exact absurd (show st.targetsCache = none from hc) (by simp [h₁])
      | some tl =>
          simp only [Option.getD_some]
          simp [dictGetDict, dictGetValue_setValue_self]
    · exact dictGetValue_setValue_self targetInfo kiSCSIPKAuthKey (Node.str kiSCSIPVAuthNone)
  · intro st kc
    cases hic : st.initiatorCache with
    | none =>
        refine ⟨{ st with
            initiatorCache := some (dictSetValue iSCSIPLCreateInitiatorDict
              kiSCSIPKAuthKey (Node.str kiSCSIPVAuthNone)),
            initiatorNodeCacheModified := true }, ?_, ?_⟩
        · rw [iSCSIPLSetAuthenticationForInitiator, iSCSIPLGetInitiator]
          simp [hic]
        · simp [dictGetValue_setValue_self]
    | some initiatorInfo =>
        refine ⟨{ st with
            initiatorCache := some (dictSetValue initiatorInfo
              kiSCSIPKAuthKey (Node.str kiSCSIPVAuthNone)),
            initiatorNodeCacheModified := true }, ?_, ?_⟩
        · rw [iSCSIPLSetAuthenticationForInitiator, iSCSIPLGetInitiator]
          simp [hic]
        · simp [dictGetValue_setValue_self]

/-- C5 witness: a concrete target entry with a stale CHAP tag and a keychain
holding a secret for it; setting a None authentication leaves that keychain
value untouched and tags the entry "None". -/
theorem C5_witness :
    ((⟨some [("iqn.b", Node.dict [(kiSCSIPKAuthKey, Node.str kiSCSIPVAuthCHAP)])],
        false, none, false, none, false⟩ : PLState).targetsCache
      = some [("iqn.b", Node.dict [(kiSCSIPKAuthKey, Node.str kiSCSIPVAuthCHAP)])])
  ∧ (∃ st₂ : PLState,
      iSCSIPLSetAuthenticationForTarget "iqn.b" iSCSIAuth.authNone
          ⟨some [("iqn.b", Node.dict [(kiSCSIPKAuthKey, Node.str kiSCSIPVAuthCHAP)])],
            false, none, false, none, false⟩
          ⟨fun _ => (0, "olduser", "oldsecret")⟩
        = some (st₂, ⟨fun _ => (0, "olduser", "oldsecret")⟩)
      ∧ ∃ targetInfo₂ : Dict,
          dictGetDict (st₂.targetsCache.getD []) "iqn.b" = some targetInfo₂
        ∧ dictGetValue targetInfo₂ kiSCSIPKAuthKey = some (Node.str kiSCSIPVAuthNone)) := by
  exact ⟨rfl,
    C5_setAuth_none_no_keychain_write.1
      ⟨some [("iqn.b", Node.dict [(kiSCSIPKAuthKey, Node.str kiSCSIPVAuthCHAP)])],
        false, none, false, none, false⟩
      [("iqn.b", Node.dict [(kiSCSIPKAuthKey, Node.str kiSCSIPVAuthCHAP)])]
      [(kiSCSIPKAuthKey, Node.str kiSCSIPVAuthCHAP)]
      "iqn.b" ⟨fun _ => (0, "olduser", "oldsecret")⟩ rfl rfl⟩

/-- C6: each `iSCSIPLAddDiscoveryRecord` call merges the serialized record's
keys into the discovery cache with the record's value winning on collision
(so a sequence of calls yields the key-wise union in call order, later value
winning), creates the cache on first use, marks discovery modified, and the
spec's concrete example {a:1, b:2} then {b:3, c:4} yields {a:1, b:3, c:4}. -/
theorem C6_addDiscoveryRecord_merge :
    (∀ (st : PLState) (dd : Dict) (key : String), (dd.map Prod.fst).Nodup →
        dictGetValue ((iSCSIPLAddDiscoveryRecord (some dd) st).discoveryCache.getD []) key
          = (dictGetValue dd key).or (dictGetValue (st.discoveryCache.getD []) key))
  ∧ (∀ (st : PLState) (dd : Dict),
        (iSCSIPLAddDiscoveryRecord (some dd) st).discoveryCache.isSome = true
      ∧ (iSCSIPLAddDiscoveryRecord (some dd) st).discoveryCacheModified = true)
  ∧ (iSCSIPLAddDiscoveryRecord (some [("b", Node.str "3"), ("c", Node.str "4")])
        (iSCSIPLAddDiscoveryRecord (some [("a", Node.str "1"), ("b", Node.str "2")])
          ⟨none, false, none, false, none, false⟩)).discoveryCache
      = some [("a", Node.str "1"), ("b", Node.str "3"), ("c", Node.str "4")] := by
  refine ⟨?_, ?_, rfl⟩
  · intro st dd key hnd
    cases hdc : st.discoveryCache with
    | none =>
        rw [iSCSIPLAddDiscoveryRecord]
        simp only [hdc, Option.getD_none, Option.getD_some]
        exact dictGetValue_foldl_setValue dd iSCSIPLCreateDiscoveryDict key hnd
    | some dc =>
        rw [iSCSIPLAddDiscoveryRecord]
        simp only [hdc, Option.getD_some]
        exact dictGetValue_foldl_setValue dd dc key hnd
  · intro st dd
    cases st.discoveryCache <;> exact ⟨rfl, rfl⟩

/-- C6 witness: the merge equation instantiated at the colliding key "b" of
the spec's example, with the record's key set nodup discharged concretely. -/
theorem C6_witness :
    (([("b", Node.str "3"), ("c", Node.str "4")].map
        (Prod.fst (α := String) (β := Node))).Nodup)
  ∧ dictGetValue ((iSCSIPLAddDiscoveryRecord (some [("b", Node.str "3"), ("c", Node.str "4")])
        ⟨none, false, some [("a", Node.str "1"), ("b", Node.str "2")], true, none,
          false⟩).discoveryCache.getD []) "b"
      = (dictGetValue [("b", Node.str "3"), ("c", Node.str "4")] "b").or
          (dictGetValue [("a", Node.str "1"), ("b", Node.str "2")] "b") := by
  refine ⟨by decide, ?_⟩
  exact C6_addDiscoveryRecord_merge.1
    ⟨none, false, some [("a", Node.str "1"), ("b", Node.str "2")], true, none, false⟩
    [("b", Node.str "3"), ("c", Node.str "4")] "b" (by decide)

/-- C7, counterexample: `iSCSIPLRemoveTarget` on a qualified name that was
never created, starting from the initial state where the targets cache was
never materialized, returns with the state unchanged — in particular it does
NOT mark the Targets namespace modified, contradicting the claimed
unconditional marking. -/
theorem C7_counterexample :
    iSCSIPLRemoveTarget "iqn.2015-01.com.example:x"
        ⟨none, false, none, false, none, false⟩
      = ⟨none, false, none, false, none, false⟩
  ∧ (iSCSIPLRemoveTarget "iqn.2015-01.com.example:x"
        ⟨none, false, none, false, none, false⟩).targetNodesCacheModified = false :=
  ⟨rfl, rfl⟩

/-- C7, amended: `iSCSIPLRemoveTarget` on a never-created name raises no
error; when the targets cache is materialized it leaves `containsTarget`
false and marks the Targets namespace modified even though the key did not
exist, but when the cache is absent it returns without marking. Likewise
`iSCSIPLRemovePortalForTarget` marks the namespace modified whenever the
portals list resolves, even if the portal address is absent, and returns
without marking when the portals list does not resolve. -/
theorem C7_remove_marks_modified :
    (∀ (st : PLState) (targetsList : Dict) (targetIQN : String),
        st.targetsCache = some targetsList →
        dictContainsKey targetsList targetIQN = false →
          iSCSIPLContainsTarget targetIQN (iSCSIPLRemoveTarget targetIQN st) = some false
        ∧ (iSCSIPLRemoveTarget targetIQN st).targetNodesCacheModified = true)
  ∧ (∀ (st : PLState) (targetIQN : String),
        st.targetsCache = none → iSCSIPLRemoveTarget targetIQN st = st)
  ∧ (∀ (st : PLState) (portalsList : Dict) (targetIQN portalAddress : String),
        (iSCSIPLGetPortalsList targetIQN false st).1 = some portalsList →
          (iSCSIPLRemovePortalForTarget targetIQN portalAddress st).targetNodesCacheModified
            = true)
  ∧ (∀ (st : PLState) (targetIQN portalAddress : String),
        (iSCSIPLGetPortalsList targetIQN false st).1 = none →
          iSCSIPLRemovePortalForTarget targetIQN portalAddress st = st) := by
  refine ⟨?_, ?_, ?_, ?_⟩
  · intro st targetsList targetIQN h₁ _h₂
    have hrem : iSCSIPLRemoveTarget targetIQN st
        = { st with targetsCache := some (dictRemoveValue targetsList targetIQN),
                    targetNodesCacheModified := true } := by
      rw [iSCSIPLRemoveTarget, iSCSIPLGetTargets_false, h₁]
    constructor
    · rw [hrem, iSCSIPLContainsTarget, iSCSIPLGetTargets_false]
      simp [dictContainsKey_removeValue_self]
    · rw [hrem]
  · intro st targetIQN h₁
    rw [iSCSIPLRemoveTarget, iSCSIPLGetTargets_false, h₁]
  · intro st portalsList targetIQN portalAddress h₁
    have h₂ : (st.targetsCache.bind (fun targetsList => dictGetDict targetsList targetIQN)).bind
        (fun targetInfo => dictGetDict targetInfo kiSCSIPKPortalsKey) = some portalsList := by
      rw [iSCSIPLGetPortalsList_false] at h₁
      exact h₁
    rw [iSCSIPLRemovePortalForTarget, iSCSIPLGetPortalsList_false, h₂]
    exact (stWritePortalsList_flags _ _ _).1
  · intro st targetIQN portalAddress h₁
    have h₂ : (st.targetsCache.bind (fun targetsList => dictGetDict targetsList targetIQN)).bind
        (fun targetInfo => dictGetDict targetInfo kiSCSIPKPortalsKey) = none := by
      rw [iSCSIPLGetPortalsList_false] at h₁
      exact h₁
    rw [iSCSIPLRemovePortalForTarget, iSCSIPLGetPortalsList_false, h₂]

/-- C7 witness: with a materialized empty targets cache, removing a
never-created name leaves contains false and sets the modified flag. -/
theorem C7_witness :
    ((⟨some [], false, none, false, none, false⟩ : PLState).targetsCache = some [])
  ∧ dictContainsKey [] "iqn.2015-01.com.example:x" = false
  ∧ iSCSIPLContainsTarget "iqn.2015-01.com.example:x"
      (iSCSIPLRemoveTarget "iqn.2015-01.com.example:x"
        ⟨some [], false, none, false, none, false⟩) = some false
  ∧ (iSCSIPLRemoveTarget "iqn.2015-01.com.example:x"
      ⟨some [], false, none, false, none, false⟩).targetNodesCacheModified = true := by
  have h := C7_remove_marks_modified.1 ⟨some [], false, none, false, none, false⟩ []
    "iqn.2015-01.com.example:x" rfl rfl
  exact ⟨rfl, rfl, h.1, h.2⟩

/-- C8: evaluation of the code at the failing input. In the initial state,
before any target is created, `iSCSIPLContainsTarget` hands the `NULL`
targets list to `CFDictionaryContainsKey` (outer `none`, a crash) instead of
returning false as the claim (and the function's own doc comment) states;
the second half of the claim does hold: immediately after `iSCSIPLSetTarget`
with that qualified name, `iSCSIPLContainsTarget` returns true with no
intervening synchronize. -/
theorem C8_containsTarget_eval :
    iSCSIPLContainsTarget "iqn.2015-01.com.example:t0"
        ⟨none, false, none, false, none, false⟩ = none
  ∧ iSCSIPLSetTarget "iqn.2015-01.com.example:t0" (Node.dict [])
        ⟨none, false, none, false, none, false⟩
      = some ⟨some [("iqn.2015-01.com.example:t0",
            Node.dict [(kiSCSIPKTargetKey, Node.dict [])])], true, none, false, none, false⟩
  ∧ iSCSIPLContainsTarget "iqn.2015-01.com.example:t0"
        ⟨some [("iqn.2015-01.com.example:t0",
            Node.dict [(kiSCSIPKTargetKey, Node.dict [])])], true, none, false, none, false⟩
      = some true :=
  ⟨rfl, rfl, rfl⟩

/-- C9: `iSCSIPLSetAuthenticationForTarget` resolves the target entry with
`createIfMissing = false`; whenever the targets cache is absent or does not
contain the target, the write dereferences a null dictionary (outer `none`),
and it is safe exactly under the precondition that the target entry already
exists. -/
theorem C9_setAuthTarget_requires_existing_target :
    (∀ (st : PLState) (targetIQN : String) (targetAuth : iSCSIAuth) (kc : Keychain),
        st.targetsCache = none →
        iSCSIPLSetAuthenticationForTarget targetIQN targetAuth st kc = none)
  ∧ (∀ (st : PLState) (targetsList : Dict) (targetIQN : String) (targetAuth : iSCSIAuth)
        (kc : Keychain),
        st.targetsCache = some targetsList →
        dictContainsKey targetsList targetIQN = false →
        iSCSIPLSetAuthenticationForTarget targetIQN targetAuth st kc = none)
  ∧ (∀ (st : PLState) (targetsList targetInfo : Dict) (targetIQN : String)
        (targetAuth : iSCSIAuth) (kc : Keychain),
        st.targetsCache = some targetsList →
        dictGetDict targetsList targetIQN = some targetInfo →
        (iSCSIPLSetAuthenticationForTarget targetIQN targetAuth st kc).isSome = true) := by
  refine ⟨?_, ?_, ?_⟩
  · intro st targetIQN targetAuth kc h₁
    simp [iSCSIPLSetAuthenticationForTarget, iSCSIPLGetTargetInfo_false, h₁]
  · intro st targetsList targetIQN targetAuth kc h₁ h₂
    have h₃ : dictGetDict targetsList targetIQN = none := by
      rw [dictGetDict, (dictContainsKey_eq_false_iff _ _).mp h₂]
    simp [iSCSIPLSetAuthenticationForTarget, iSCSIPLGetTargetInfo_false, h₁, h₃]
  · intro st targetsList targetInfo targetIQN targetAuth kc h₁ h₂
    cases targetAuth <;>
      simp [iSCSIPLSetAuthenticationForTarget, iSCSIPLGetTargetInfo_false, h₁, h₂]

/-- C9 witness: in the initial state (targets cache never materialized) the
call faults; with the target entry present it succeeds. -/
theorem C9_witness :
    ((⟨none, false, none, false, none, false⟩ : PLState).targetsCache = none)
  ∧ iSCSIPLSetAuthenticationForTarget "iqn.2015-01.com.example:t0" iSCSIAuth.authNone
      ⟨none, false, none, false, none, false⟩ ⟨fun _ => (0, "", "")⟩ = none
  ∧ (iSCSIPLSetAuthenticationForTarget "iqn.2015-01.com.example:t0" iSCSIAuth.authNone
      ⟨some [("iqn.2015-01.com.example:t0", Node.dict [])], false, none, false, none, false⟩
      ⟨fun _ => (0, "", "")⟩).isSome = true := by
  refine ⟨rfl, ?_, ?_⟩
  · exact C9_setAuthTarget_requires_existing_target.1
      ⟨none, false, none, false, none, false⟩ "iqn.2015-01.com.example:t0"
      iSCSIAuth.authNone ⟨fun _ => (0, "", "")⟩ rfl
  · exact C9_setAuthTarget_requires_existing_target.2.2
      ⟨some [("iqn.2015-01.com.example:t0", Node.dict [])], false, none, false, none, false⟩
      [("iqn.2015-01.com.example:t0", Node.dict [])] [] "iqn.2015-01.com.example:t0"
      iSCSIAuth.authNone ⟨fun _ => (0, "", "")⟩ rfl rfl

/-- C10: `iSCSIPLClearDiscoveryRecord` releases the discovery cache without
checking for absence: in every state where the discovery cache is absent the
call passes `NULL` to `CFRelease` (outer `none`); when the cache is present
it discards it and marks discovery modified. -/
theorem C10_clearDiscovery_null_release :
    (∀ st : PLState, st.discoveryCache = none → iSCSIPLClearDiscoveryRecord st = none)
  ∧ (∀ (st : PLState) (dc : Dict), st.discoveryCache = some dc →
        iSCSIPLClearDiscoveryRecord st
          = some { st with discoveryCache := none, discoveryCacheModified := true }) := by
  constructor
  · intro st h₁
    rw [iSCSIPLClearDiscoveryRecord, h₁]
  · intro st dc h₁
    rw [iSCSIPLClearDiscoveryRecord, h₁]

/-- C10 witness: the initial state faults; a state holding an empty
discovery cache is cleared and marked modified. -/
theorem C10_witness :
    ((⟨none, false, none, false, none, false⟩ : PLState).discoveryCache = none)
  ∧ iSCSIPLClearDiscoveryRecord ⟨none, false, none, false, none, false⟩ = none
  ∧ ((⟨none, false, some [], false, none, false⟩ : PLState).discoveryCache = some [])
  ∧ iSCSIPLClearDiscoveryRecord ⟨none, false, some [], false, none, false⟩
      = some ⟨none, false, none, true, none, false⟩ := by
  refine ⟨rfl, ?_, rfl, ?_⟩
  · exact C10_clearDiscovery_null_release.1 ⟨none, false, none, false, none, false⟩ rfl
  · exact C10_clearDiscovery_null_release.2 ⟨none, false, some [], false, none, false⟩ [] rfl
